import Mathlib

/-!
Verification of `ports/linux/datetime-init.c` (decoupled BACnet time,
`USE_DECOUPLED_BACNET_TIME == 1`, the configuration selected by
`bacnet/datetime.h`).

The libc time functions (`time`, `localtime`, `gmtime`, `timegm`) are
external collaborators; they are modelled as fields of a host
environment record `Env`.  `localtime`/`gmtime` may return NULL, hence
`Option Tm`.  `timegm` reads only the six calendar fields of `struct tm`
(`tm_isdst`, `tm_gmtoff` and the day fields are ignored by its
contract), so it is modelled as a function of those six integers.
Within one call of an engine operation every `time(NULL)` read yields
`Env.now`: the engine is modelled as a pure function of one host
snapshot.

C out-parameters are modelled as in/out cells: each function receives
the prior contents of the cells its pointer arguments reference and
returns their final contents, so that "the callee left the cell
untouched" is expressible.  For `datetime_local_raw`, which callers in
this file invoke with NULL pointers, the cells are `Option`-valued
(`none` models a NULL pointer; `datetime_set_date`/`datetime_set_time`
of the external calendar collaborator ignore NULL destinations, and the
remaining pointer accesses are explicitly NULL-checked in the source).
`datetime_local` is only called with non-NULL pointers here, so its
cells are plain values.

Machine integers: `time_t` and the intermediate `int` arithmetic are
modelled as unbounded `Int` (64-bit overflow is unreachable for
calendar-scale values); the narrowing casts the source performs —
`(int16_t)` on UTC-offset minutes, `(uint16_t)`/`(uint8_t)` on calendar
fields — are modelled exactly by `int16_of`, `uint16_of`, `uint8_of`.
C integer division truncates toward zero, which is `Int.tdiv`; C `%` on
the involved nonnegative ranges agrees with `Int.emod`.

`BACNET_DATE` also carries a derived weekday field maintained by the
external calendar collaborator (`datetime.c`, outside this port); no
claim concerns it and it is omitted.
-/

namespace BACnetDatetime

/-- Fields of C `struct tm` used by the source. -/
structure Tm where
  tm_sec : Int
  tm_min : Int
  tm_hour : Int
  tm_mday : Int
  tm_mon : Int
  tm_year : Int
  tm_isdst : Int
  tm_gmtoff : Int
deriving DecidableEq, Repr

/-- `BACNET_DATE` (from `bacnet/datetime.h`); the derived `wday` field is
omitted (see the file header). -/
structure BACNET_DATE where
  year : Int
  month : Int
  day : Int
deriving DecidableEq, Repr

/-- `BACNET_TIME` (from `bacnet/datetime.h`). -/
structure BACNET_TIME where
  hour : Int
  min : Int
  sec : Int
  hundredths : Int
deriving DecidableEq, Repr

/-- `BACNET_DATE_TIME` (from `bacnet/datetime.h`). -/
structure BACNET_DATE_TIME where
  date : BACNET_DATE
  time : BACNET_TIME
deriving DecidableEq, Repr

/-- The two `BACNET_ERROR_CODE` values this file can write. -/
inductive BACNET_ERROR_CODE where
  | ERROR_CODE_VALUE_OUT_OF_RANGE
  | ERROR_CODE_WRITE_ACCESS_DENIED
deriving DecidableEq, Repr

/-- Host environment: one snapshot of the libc time facilities.
`localtime`/`gmtime` return `none` for a NULL result; `timegm` takes
(sec, min, hour, mday, mon, year). -/
structure Env where
  now : Int
  localtime : Int → Option Tm
  gmtime : Int → Option Tm
  timegm : Int → Int → Int → Int → Int → Int → Int

/-- The file-scope mutable state of the decoupled engine. -/
structure ClockState where
  decoupledTimeOffset_seconds : Int
  UTC_Offset_override : Bool
  UTC_Offset_seconds : Int
  Daylight_Savings_Status_override : Bool
  Daylight_Savings_Status : Bool
deriving DecidableEq, Repr

/-- C cast to `int16_t` (two's complement wraparound). -/
def int16_of (x : Int) : Int := Int.emod (x + 32768) 65536 - 32768

/-- C cast to `uint16_t`. -/
def uint16_of (x : Int) : Int := Int.emod x 65536

/-- C cast to `uint8_t`. -/
def uint8_of (x : Int) : Int := Int.emod x 256

/-- Combined effect of the casts and `datetime_set_date` at the
decomposition call sites: `datetime_set_date(bdate,
(uint16_t)(tm_year + 1900), (uint8_t)(tm_mon + 1), (uint8_t)tm_mday)`. -/
def tm_to_bacnet_date (t : Tm) : BACNET_DATE :=
  { year := uint16_of (t.tm_year + 1900)
    month := uint8_of (t.tm_mon + 1)
    day := uint8_of t.tm_mday }

/-- Combined effect of the casts and `datetime_set_time` at the
decomposition call sites (hundredths are always written as 0). -/
def tm_to_bacnet_time (t : Tm) : BACNET_TIME :=
  { hour := uint8_of t.tm_hour
    min := uint8_of t.tm_min
    sec := uint8_of t.tm_sec
    hundredths := 0 }

/-- `static bool datetime_isDST(time_t localTime)`: reads
`localtime(&localTime)->tm_isdst > 0`.  The source dereferences the
result without a NULL check, which is undefined behaviour when
`localtime` fails; the `none` branch below is an arbitrary total
completion, and every theorem exercising this function supplies
hypotheses under which `localtime` succeeds at the instants used. -/
def datetime_isDST (env : Env) (localTime : Int) : Bool :=
  match env.localtime localTime with
  | some tblock => tblock.tm_isdst > 0
  | none => false

/-- `static int16_t datetime_UTCOffsetMinutes(void)`: decomposes
`time(NULL)` with `localtime` and returns `-tm_gmtoff/60` plus 60 when
`tm_isdst` is nonzero.  Note the sign: `tm_gmtoff` is east-positive
seconds, so the result is west-positive minutes.  The NULL dereference
caveat of `datetime_isDST` applies; the `none` branch is an arbitrary
total completion. -/
def datetime_UTCOffsetMinutes (env : Env) : Int :=
  match env.localtime env.now with
  | some tblock =>
      if tblock.tm_isdst ≠ 0 then
        int16_of (Int.tdiv (-tblock.tm_gmtoff) 60 + 60)
      else
        int16_of (Int.tdiv (-tblock.tm_gmtoff) 60)
  | none => 0

/-- Out-parameter cells of `datetime_local_raw`; `none` models a NULL
pointer argument, `some v` a pointer to a cell currently holding `v`. -/
structure RawCells where
  bdate : Option BACNET_DATE
  btime : Option BACNET_TIME
  utc_offset_minutes : Option Int
  dst_active : Option Bool
deriving DecidableEq, Repr

/-- `static bool datetime_local_raw(...)` in the decoupled
configuration: applies only `decoupledTimeOffset_seconds` (not the
UTC-offset or DST overrides), decomposes with `localtime`, and on a NULL
`localtime` result writes the fallback 1900-01-01, 00:00:00.00,
`dst_active = false`, `utc_offset_minutes = 8*60` into whichever cells
are non-NULL and returns false.  `datetime_UTCOffsetMinutes` is invoked
before the NULL check, exactly as in the source. -/
def datetime_local_raw (env : Env) (st : ClockState) (cells : RawCells) :
    Bool × RawCells :=
  let tSinceEpoch_seconds := env.now + st.decoupledTimeOffset_seconds
  let utcOffsetMinutes := datetime_UTCOffsetMinutes env
  match env.localtime tSinceEpoch_seconds with
  | some tblock =>
      (true,
        { bdate := cells.bdate.map fun _ => tm_to_bacnet_date tblock
          btime := cells.btime.map fun _ => tm_to_bacnet_time tblock
          dst_active := cells.dst_active.map fun _ => tblock.tm_isdst > 0
          utc_offset_minutes :=
            cells.utc_offset_minutes.map fun _ => int16_of utcOffsetMinutes })
  | none =>
      (false,
        { bdate := cells.bdate.map fun _ =>
            { year := 1900, month := 1, day := 1 }
          btime := cells.btime.map fun _ =>
            { hour := 0, min := 0, sec := 0, hundredths := 0 }
          dst_active := cells.dst_active.map fun _ => false
          utc_offset_minutes := cells.utc_offset_minutes.map fun _ => 8 * 60 })

/-- Out-parameter cells of `datetime_local` (all pointers non-NULL, as
at every decoupled call site considered here). -/
structure LocalCells where
  bdate : BACNET_DATE
  btime : BACNET_TIME
  utc_offset_minutes : Int
  dst_active : Bool
deriving DecidableEq, Repr

/-- Instant-and-DST computation of `datetime_local` before its final
`gmtime` decomposition (source lines 161–201): tracking instant =
`time(NULL) + decoupledTimeOffset_seconds`; the effective UTC-offset
seconds come from the override when present, else from
`datetime_UTCOffsetMinutes() * 60`; the instant is shifted by `-offset`
and, when DST is effective (override value, else `datetime_isDST` of
the shifted instant), by `+3600`. -/
def datetime_local_projection (env : Env) (st : ClockState) : Int × Bool :=
  let tSinceEpoch0 := env.now + st.decoupledTimeOffset_seconds
  let tUTC_offsetSeconds : Int :=
    if st.UTC_Offset_override then st.UTC_Offset_seconds
    else datetime_UTCOffsetMinutes env * 60
  let tSinceEpoch1 := tSinceEpoch0 - tUTC_offsetSeconds
  let dst : Bool :=
    if st.Daylight_Savings_Status_override then st.Daylight_Savings_Status
    else datetime_isDST env tSinceEpoch1
  let tSinceEpoch2 := if dst then tSinceEpoch1 + 3600 else tSinceEpoch1
  (tSinceEpoch2, dst)

/-- `bool datetime_local(...)` in the decoupled configuration: shifts
the tracking instant per `datetime_local_projection`, then decomposes it
with `gmtime`.  On success the cells receive the decomposed fields,
`dst_active` receives the effective DST flag (the source stores it into
`tm_isdst` and reads it back with `> 0`), and `utc_offset_minutes`
receives `datetime_UTCOffsetMinutes()` — the host-derived value,
independent of the override.  On a NULL `gmtime` result only the date
and time cells are written (1900-01-01, 00:00:00.00); the `dst_active`
and `utc_offset_minutes` cells keep their prior contents, and false is
returned. -/
def datetime_local (env : Env) (st : ClockState) (cells : LocalCells) :
    Bool × LocalCells :=
  match env.gmtime (datetime_local_projection env st).1 with
  | some tblock =>
      (true,
        { bdate := tm_to_bacnet_date tblock
          btime := tm_to_bacnet_time tblock
          utc_offset_minutes := datetime_UTCOffsetMinutes env
          dst_active := (datetime_local_projection env st).2 })
  | none =>
      (false,
        { cells with
            bdate := { year := 1900, month := 1, day := 1 }
            btime := { hour := 0, min := 0, sec := 0, hundredths := 0 } })

/-- `bool datetime_local_set(BACNET_DATE_TIME* bdt)` in the decoupled
configuration: first unconditionally cancels both overrides, then
converts the input with `timegm` (offset-naive); when the result is
positive it re-derives the host UTC offset and DST at that instant,
adjusts (`+offset*60`, `-3600` if DST) and stores the delta to
`time(NULL)` as the tracking offset.  Returns true in every case. -/
def datetime_local_set (env : Env) (bdt : BACNET_DATE_TIME)
    (st : ClockState) : Bool × ClockState :=
  let st1 :=
    { st with
        Daylight_Savings_Status_override := false
        UTC_Offset_override := false }
  let setTime :=
    env.timegm bdt.time.sec bdt.time.min bdt.time.hour bdt.date.day
      (bdt.date.month - 1) (bdt.date.year - 1900)
  let gmTimeNow := env.now
  if setTime > 0 then
    let utcOffsetMinutes := datetime_UTCOffsetMinutes env
    let dst := datetime_isDST env setTime
    let setTime1 := setTime + utcOffsetMinutes * 60
    let setTime2 := if dst then setTime1 - 60 * 60 else setTime1
    let delta := setTime2 - gmTimeNow
    (true, { st1 with decoupledTimeOffset_seconds := delta })
  else
    (true, st1)

/-- `bool datetime_utc_set(BACNET_DATE_TIME* bdt)` in the decoupled
configuration: converts the input with `timegm`; when the result is
positive, stores `setTime - time(NULL)` as the tracking offset.  The
override state is never touched.  Returns true in every case. -/
def datetime_utc_set (env : Env) (bdt : BACNET_DATE_TIME)
    (st : ClockState) : Bool × ClockState :=
  let setTime :=
    env.timegm bdt.time.sec bdt.time.min bdt.time.hour bdt.date.day
      (bdt.date.month - 1) (bdt.date.year - 1900)
  if setTime > 0 then
    (true, { st with decoupledTimeOffset_seconds := setTime - env.now })
  else
    (true, st)

/-- `bool datetime_UTC_Offset_set(int offset, BACNET_ERROR_CODE* wpEC)`
in the decoupled configuration.  The source's range test is
`(offset < -12*60) && (offset > 12*60)` — a conjunction, unsatisfiable,
reproduced verbatim here — so the rejection branch (write
`ERROR_CODE_VALUE_OUT_OF_RANGE`, return false, no state change) is dead
and every offset is stored.  The second component is the value written
through `wpEC` (`none` when the source leaves it untouched). -/
def datetime_UTC_Offset_set (offset : Int) (st : ClockState) :
    Bool × Option BACNET_ERROR_CODE × ClockState :=
  if offset < -(12 * 60) ∧ offset > 12 * 60 then
    (false, some BACNET_ERROR_CODE.ERROR_CODE_VALUE_OUT_OF_RANGE, st)
  else
    (true, none,
      { st with
          UTC_Offset_seconds := offset * 60
          UTC_Offset_override := true })

/-- `int datetime_UTC_Offset_get(void)` in the decoupled configuration:
the override's `UTC_Offset_seconds / 60` when the override is present,
else the `utc_offset_minutes` cell produced by
`datetime_local_raw(NULL, NULL, &cell, NULL)` — whose boolean result is
discarded.  The cell is always written by `datetime_local_raw` when its
pointer is non-NULL, so the `getD` default is unreachable. -/
def datetime_UTC_Offset_get (env : Env) (st : ClockState) : Int :=
  if st.UTC_Offset_override then
    Int.tdiv st.UTC_Offset_seconds 60
  else
    let r := datetime_local_raw env st
      { bdate := none, btime := none, utc_offset_minutes := some 0
        dst_active := none }
    (r.2.utc_offset_minutes).getD 0

/-- `bool datetime_DST_set(bool dst, BACNET_ERROR_CODE* wpEC)` in the
decoupled configuration: unconditionally stores the value, raises the
override flag, ignores `wpEC`, returns true. -/
def datetime_DST_set (dst : Bool) (st : ClockState) : Bool × ClockState :=
  (true,
    { st with
        Daylight_Savings_Status := dst
        Daylight_Savings_Status_override := true })

/-- `bool datetime_DST_get(void)` in the decoupled configuration: the
override value when present, else `datetime_isDST` of
`time(NULL) + decoupledTimeOffset_seconds - datetime_UTC_Offset_get()*60`. -/
def datetime_DST_get (env : Env) (st : ClockState) : Bool :=
  if st.Daylight_Savings_Status_override then
    st.Daylight_Savings_Status
  else
    let utcTime := env.now
    let adjTime := utcTime + st.decoupledTimeOffset_seconds
    let adjTime2 := adjTime + -(datetime_UTC_Offset_get env st) * 60
    datetime_isDST env adjTime2

/-! Concrete host environments and states used by the closed witness and
counterexample theorems below. -/

/-- An arbitrary concrete `struct tm` (1970-01-01 00:00:00, no DST,
zero offset). -/
def tm0 : Tm :=
  { tm_sec := 0, tm_min := 0, tm_hour := 0, tm_mday := 1, tm_mon := 0
    tm_year := 70, tm_isdst := 0, tm_gmtoff := 0 }

/-- Initial engine state: zero tracking offset, no overrides. -/
def st0 : ClockState :=
  { decoupledTimeOffset_seconds := 0, UTC_Offset_override := false
    UTC_Offset_seconds := 0, Daylight_Savings_Status_override := false
    Daylight_Savings_Status := false }

/-- Arbitrary prior contents for the out-parameter cells of
`datetime_local`. -/
def cells0 : LocalCells :=
  { bdate := { year := 2000, month := 6, day := 15 }
    btime := { hour := 12, min := 34, sec := 56, hundredths := 0 }
    utc_offset_minutes := 0, dst_active := false }

/-- Trivial host environment (never consulted by the operations it is
passed to). -/
def env0 : Env :=
  { now := 0, localtime := fun _ => some tm0, gmtime := fun _ => some tm0
    timegm := fun _ _ _ _ _ _ => 1 }

/-- Host for C3: local time decomposes everywhere to `tm0`
(`tm_gmtoff = 0`, no DST), so the host-derived offset is 0 minutes. -/
def envC3 : Env :=
  { now := 1000, localtime := fun _ => some tm0, gmtime := fun _ => some tm0
    timegm := fun _ _ _ _ _ _ => 1 }

/-- Engine state for C3: UTC-offset override present, 3600 seconds
(60 minutes). -/
def stC3 : ClockState :=
  { decoupledTimeOffset_seconds := 0, UTC_Offset_override := true
    UTC_Offset_seconds := 3600, Daylight_Savings_Status_override := false
    Daylight_Savings_Status := false }

/-- Host for C4: `timegm` fails (returns -100) on every input. -/
def envC4 : Env :=
  { now := 500, localtime := fun _ => some tm0, gmtime := fun _ => some tm0
    timegm := fun _ _ _ _ _ _ => -100 }

/-- Input date-time whose conversion `envC4.timegm` rejects
(1900-01-01 00:00:00). -/
def bdtC4 : BACNET_DATE_TIME :=
  { date := { year := 1900, month := 1, day := 1 }
    time := { hour := 0, min := 0, sec := 0, hundredths := 0 } }

/-- Engine state for C4 with a recognizable prior tracking offset. -/
def stC4 : ClockState :=
  { decoupledTimeOffset_seconds := 777, UTC_Offset_override := false
    UTC_Offset_seconds := 0, Daylight_Savings_Status_override := false
    Daylight_Savings_Status := false }

/-- Host local decomposition for C6: a UTC-5 host
(`tm_gmtoff = -18000` seconds east-positive), DST inactive. -/
def tmHostC6 : Tm :=
  { tm_sec := 5, tm_min := 30, tm_hour := 10, tm_mday := 15, tm_mon := 5
    tm_year := 120, tm_isdst := 0, tm_gmtoff := -18000 }

/-- Host for C6: every `localtime` and `gmtime` decomposition yields
`tmHostC6` (consistent with a constant-offset UTC-5 zone for the
instants the scenario touches). -/
def envC6 : Env :=
  { now := 1000000, localtime := fun _ => some tmHostC6
    gmtime := fun _ => some tmHostC6, timegm := fun _ _ _ _ _ _ => 1 }

/-- Host for C9: `gmtime` fails on every instant. -/
def envC9 : Env :=
  { now := 0, localtime := fun _ => some tm0, gmtime := fun _ => none
    timegm := fun _ _ _ _ _ _ => 1 }

/-- Engine state for C9: both overrides present, so the failing read
consults no host decomposition before `gmtime`. -/
def stC9 : ClockState :=
  { decoupledTimeOffset_seconds := 0, UTC_Offset_override := true
    UTC_Offset_seconds := 0, Daylight_Savings_Status_override := true
    Daylight_Savings_Status := false }

/-- Cells for C9 whose `dst_active` holds true before the call. -/
def cellsC9 : LocalCells :=
  { bdate := { year := 2000, month := 6, day := 15 }
    btime := { hour := 12, min := 34, sec := 56, hundredths := 0 }
    utc_offset_minutes := 123, dst_active := true }

/-- Host for C10: `localtime` succeeds at `now = 0` and fails at every
other instant, so the tracking instant `now + 100` fails to decompose. -/
def envC10 : Env :=
  { now := 0
    localtime := fun t => if t = 0 then some tm0 else none
    gmtime := fun _ => none, timegm := fun _ _ _ _ _ _ => 1 }

/-- Engine state for C10: no UTC-offset override, tracking offset 100
(so the raw read decomposes instant 100, where `localtime` fails). -/
def stC10 : ClockState :=
  { decoupledTimeOffset_seconds := 100, UTC_Offset_override := false
    UTC_Offset_seconds := 0, Daylight_Savings_Status_override := false
    Daylight_Savings_Status := false }

/-! Theorems settling the claims. -/

/-- C1: the source's range test `(offset < -720) && (offset > 720)` is an
unsatisfiable conjunction, so the out-of-range rejection is dead code:
evaluated at the claim's failing inputs 721 and -721,
`datetime_UTC_Offset_set` returns true, writes no error code, and stores
the out-of-range override — contradicting the claim (and the spec's
stated intent) that these inputs are rejected with
`ERROR_CODE_VALUE_OUT_OF_RANGE` and no state change. -/
theorem C1_range_check_dead_code :
    datetime_UTC_Offset_set 721 st0 =
      (true, none,
        { st0 with UTC_Offset_seconds := 721 * 60, UTC_Offset_override := true }) ∧
    datetime_UTC_Offset_set (-721) st0 =
      (true, none,
        { st0 with UTC_Offset_seconds := -721 * 60, UTC_Offset_override := true }) := by
  constructor <;> decide

/-- C2: for every host snapshot, input date-time and prior state,
`datetime_local_set` leaves both override flags false — it cancels the
overrides unconditionally, before the conversion is even attempted. -/
theorem C2_local_set_cancels_overrides (env : Env) (bdt : BACNET_DATE_TIME)
    (st : ClockState) :
    (datetime_local_set env bdt st).2.UTC_Offset_override = false ∧
    (datetime_local_set env bdt st).2.Daylight_Savings_Status_override = false := by
  unfold datetime_local_set
  dsimp only
  constructor <;> (split <;> rfl)

/-- C5: for every host snapshot, input date-time and prior state,
`datetime_utc_set` leaves `UTC_Offset_override`, `UTC_Offset_seconds`,
`Daylight_Savings_Status_override` and `Daylight_Savings_Status`
unchanged; of the five state fields only the tracking offset can
change. -/
theorem C5_utc_set_preserves_overrides (env : Env) (bdt : BACNET_DATE_TIME)
    (st : ClockState) :
    (datetime_utc_set env bdt st).2.UTC_Offset_override = st.UTC_Offset_override ∧
    (datetime_utc_set env bdt st).2.UTC_Offset_seconds = st.UTC_Offset_seconds ∧
    (datetime_utc_set env bdt st).2.Daylight_Savings_Status_override =
      st.Daylight_Savings_Status_override ∧
    (datetime_utc_set env bdt st).2.Daylight_Savings_Status =
      st.Daylight_Savings_Status := by
  unfold datetime_utc_set
  dsimp only
  refine ⟨?_, ?_, ?_, ?_⟩ <;> (split <;> rfl)

/-- C7: for every offset `m` in [-720, 720], `datetime_UTC_Offset_set m`
succeeds, and `datetime_UTC_Offset_get` on the resulting state returns
exactly `m` for every host environment: the round trip through the
stored seconds value `m * 60` (truncating division by 60) is exact. -/
theorem C7_offset_set_get_roundtrip (env : Env) (st : ClockState) (m : Int)
    (h1 : -720 ≤ m) (h2 : m ≤ 720) :
    (datetime_UTC_Offset_set m st).1 = true ∧
    datetime_UTC_Offset_get env (datetime_UTC_Offset_set m st).2.2 = m := by
  unfold datetime_UTC_Offset_set
  rw [if_neg (by omega)]
  refine ⟨rfl, ?_⟩
  unfold datetime_UTC_Offset_get
  rw [if_pos rfl]
  exact Int.mul_tdiv_cancel m (by decide)

/-- Witness for C7 at `m = 60` with the trivial host. -/
theorem C7_offset_set_get_roundtrip_witness :
    (datetime_UTC_Offset_set 60 st0).1 = true ∧
    datetime_UTC_Offset_get env0 (datetime_UTC_Offset_set 60 st0).2.2 = 60 :=
  C7_offset_set_get_roundtrip env0 st0 60 (by decide) (by decide)

/-- C8: for every boolean `b` and prior state, `datetime_DST_set b`
succeeds, and `datetime_DST_get` on the resulting state returns `b` for
every host environment — the override takes precedence over the host
clock's own DST computation. -/
theorem C8_dst_set_get_roundtrip (env : Env) (st : ClockState) (b : Bool) :
    (datetime_DST_set b st).1 = true ∧
    datetime_DST_get env (datetime_DST_set b st).2 = b := by
  unfold datetime_DST_set datetime_DST_get
  exact ⟨rfl, rfl⟩

/-- C3 counterexample: with the override present (60 minutes = 3600
seconds) and a host whose own offset is 0, a successful `datetime_local`
read does NOT return the override's minutes in `utc_offset_minutes` —
refuting the claim at this concrete input. -/
theorem C3_counterexample :
    (datetime_local envC3 stC3 cells0).1 = true ∧
    ¬((datetime_local envC3 stC3 cells0).2.utc_offset_minutes = 3600 / 60) := by
  constructor <;> decide

/-- C3 amended: whenever the UTC-offset override is present and the
local read succeeds, the override is used for the projection of the
instant, but the returned `utc_offset_minutes` is the host-derived
`datetime_UTCOffsetMinutes()` value, not the override's minutes. -/
theorem C3_amended_reports_host_offset (env : Env) (st : ClockState)
    (cells : LocalCells) (hov : st.UTC_Offset_override = true)
    (hs : (datetime_local env st cells).1 = true) :
    (datetime_local_projection env st).1 =
      (let t1 := env.now + st.decoupledTimeOffset_seconds - st.UTC_Offset_seconds
       if (if st.Daylight_Savings_Status_override then st.Daylight_Savings_Status
           else datetime_isDST env t1) then t1 + 3600 else t1) ∧
    (datetime_local env st cells).2.utc_offset_minutes =
      datetime_UTCOffsetMinutes env := by
  constructor
  · unfold datetime_local_projection
    simp only [hov, if_true]
  · unfold datetime_local at hs ⊢
    cases hgm : env.gmtime (datetime_local_projection env st).1 with
    | some tblock => rfl
    | none => rw [hgm] at hs; simp at hs

/-- Witness for C3 amended at the concrete host `envC3`: the read
succeeds and reports the host's 0 minutes although the override holds
3600 seconds. -/
theorem C3_amended_reports_host_offset_witness :
    (datetime_local_projection envC3 stC3).1 =
      (let t1 := envC3.now + stC3.decoupledTimeOffset_seconds - stC3.UTC_Offset_seconds
       if (if stC3.Daylight_Savings_Status_override then stC3.Daylight_Savings_Status
           else datetime_isDST envC3 t1) then t1 + 3600 else t1) ∧
    (datetime_local envC3 stC3 cells0).2.utc_offset_minutes =
      datetime_UTCOffsetMinutes envC3 :=
  C3_amended_reports_host_offset envC3 stC3 cells0 rfl (by decide)

/-- C4 counterexample: with a host whose `timegm` yields -100 (the
conversion fails), both `datetime_local_set` and `datetime_utc_set`
still return true — refuting the claim that they report failure exactly
when the conversion fails. -/
theorem C4_counterexample :
    envC4.timegm bdtC4.time.sec bdtC4.time.min bdtC4.time.hour bdtC4.date.day
        (bdtC4.date.month - 1) (bdtC4.date.year - 1900) ≤ 0 ∧
    (datetime_local_set envC4 bdtC4 stC4).1 = true ∧
    (datetime_utc_set envC4 bdtC4 stC4).1 = true := by
  refine ⟨by decide, by decide, by decide⟩

/-- C4 amended: when the conversion fails (`timegm` non-positive), both
setters leave the tracking offset unchanged but still report success:
true is returned unconditionally in the decoupled configuration. -/
theorem C4_amended_success_unconditional (env : Env) (bdt : BACNET_DATE_TIME)
    (st : ClockState)
    (h : env.timegm bdt.time.sec bdt.time.min bdt.time.hour bdt.date.day
        (bdt.date.month - 1) (bdt.date.year - 1900) ≤ 0) :
    (datetime_local_set env bdt st).1 = true ∧
    (datetime_utc_set env bdt st).1 = true ∧
    (datetime_local_set env bdt st).2.decoupledTimeOffset_seconds =
      st.decoupledTimeOffset_seconds ∧
    (datetime_utc_set env bdt st).2.decoupledTimeOffset_seconds =
      st.decoupledTimeOffset_seconds := by
  unfold datetime_local_set datetime_utc_set
  dsimp only
  rw [if_neg (by omega), if_neg (by omega)]
  exact ⟨rfl, rfl, rfl, rfl⟩

/-- Witness for C4 amended at the concrete host `envC4` whose `timegm`
rejects the input. -/
theorem C4_amended_success_unconditional_witness :
    (datetime_local_set envC4 bdtC4 stC4).1 = true ∧
    (datetime_utc_set envC4 bdtC4 stC4).1 = true ∧
    (datetime_local_set envC4 bdtC4 stC4).2.decoupledTimeOffset_seconds =
      stC4.decoupledTimeOffset_seconds ∧
    (datetime_utc_set envC4 bdtC4 stC4).2.decoupledTimeOffset_seconds =
      stC4.decoupledTimeOffset_seconds :=
  C4_amended_success_unconditional envC4 bdtC4 stC4 (by decide)

/-- C6 counterexample: on a UTC-5 host (east-positive offset -300
minutes, `tm_gmtoff = -18000`), host DST inactive, no overrides,
tracking offset 0, a successful `datetime_local` read reports
`dst_active = false` but `utc_offset_minutes` is NOT the claimed -300:
the source computes `-tm_gmtoff/60`, a west-positive +300. -/
theorem C6_counterexample :
    (datetime_local envC6 st0 cells0).1 = true ∧
    (datetime_local envC6 st0 cells0).2.dst_active = false ∧
    ¬((datetime_local envC6 st0 cells0).2.utc_offset_minutes = -300) := by
  refine ⟨by decide, by decide, by decide⟩

/-- C6 amended: on a UTC-5 host (`tm_gmtoff = -18000` east-positive,
DST inactive at the current and at the projected instant), with no
overrides and tracking offset 0, `datetime_local` succeeds and returns
the host's local wall-clock date and time fields (the `gmtime`
decomposition of `now - 18000`, which the host-consistency hypotheses
`h10`/`h11` equate with the host's own `localtime` fields) together
with `utc_offset_minutes = 300` — west-positive, the sign the source
produces — and `dst_active = false`. -/
theorem C6_amended_west_positive_offset (env : Env) (st : ClockState)
    (cells : LocalCells) (tmH tmD tmG : Tm)
    (h1 : env.localtime env.now = some tmH)
    (h2 : tmH.tm_gmtoff = -18000)
    (h3 : tmH.tm_isdst = 0)
    (h4 : st.UTC_Offset_override = false)
    (h5 : st.Daylight_Savings_Status_override = false)
    (h6 : st.decoupledTimeOffset_seconds = 0)
    (h7 : env.localtime (env.now - 18000) = some tmD)
    (h8 : tmD.tm_isdst ≤ 0)
    (h9 : env.gmtime (env.now - 18000) = some tmG)
    (h10 : tm_to_bacnet_date tmG = tm_to_bacnet_date tmH)
    (h11 : tm_to_bacnet_time tmG = tm_to_bacnet_time tmH) :
    (datetime_local env st cells).1 = true ∧
    (datetime_local env st cells).2.bdate = tm_to_bacnet_date tmH ∧
    (datetime_local env st cells).2.btime = tm_to_bacnet_time tmH ∧
    (datetime_local env st cells).2.utc_offset_minutes = 300 ∧
    (datetime_local env st cells).2.dst_active = false := by
  have hoff : datetime_UTCOffsetMinutes env = 300 := by
    unfold datetime_UTCOffsetMinutes
    rw [h1]
    dsimp only
    rw [if_neg (by rw [h3]; decide), h2]
    decide
  have hdst : datetime_isDST env (env.now - 18000) = false := by
    unfold datetime_isDST
    rw [h7]
    simp only [decide_eq_false_iff_not, not_lt]
    omega
  have hinst : env.now + st.decoupledTimeOffset_seconds -
      datetime_UTCOffsetMinutes env * 60 = env.now - 18000 := by
    rw [h6, hoff]; ring
  have hproj : datetime_local_projection env st = (env.now - 18000, false) := by
    unfold datetime_local_projection
    simp only [h4, h5, Bool.false_eq_true, if_false, hinst, hdst]
  unfold datetime_local
  rw [hproj]
  dsimp only
  rw [h9]
  exact ⟨rfl, h10, h11, hoff, rfl⟩

/-- Witness for C6 amended at the concrete UTC-5 host `envC6`. -/
theorem C6_amended_west_positive_offset_witness :
    (datetime_local envC6 st0 cells0).1 = true ∧
    (datetime_local envC6 st0 cells0).2.bdate = tm_to_bacnet_date tmHostC6 ∧
    (datetime_local envC6 st0 cells0).2.btime = tm_to_bacnet_time tmHostC6 ∧
    (datetime_local envC6 st0 cells0).2.utc_offset_minutes = 300 ∧
    (datetime_local envC6 st0 cells0).2.dst_active = false :=
  C6_amended_west_positive_offset envC6 st0 cells0 tmHostC6 tmHostC6 tmHostC6
    rfl rfl rfl rfl rfl rfl rfl (by decide) rfl rfl rfl

/-- C9 counterexample: when the `gmtime` decomposition fails,
`datetime_local` does return false and the fallback date/time, but it
does NOT set `dst_active` to false: a cell holding true before the call
still holds true after it — refuting the claim's fallback description
at this concrete input. -/
theorem C9_counterexample :
    (datetime_local envC9 stC9 cellsC9).1 = false ∧
    ¬((datetime_local envC9 stC9 cellsC9).2.dst_active = false) := by
  constructor <;> decide

/-- C9 amended: `datetime_local` always returns a boolean status; when
the decomposition fails (status false) it writes the canonical fallback
1900-01-01 and 00:00:00.00 into the date and time cells, but leaves the
`dst_active` and `utc_offset_minutes` out-parameters untouched rather
than setting them to a fallback. -/
theorem C9_amended_fallback_leaves_dst (env : Env) (st : ClockState)
    (cells : LocalCells)
    (h : (datetime_local env st cells).1 = false) :
    (datetime_local env st cells).2.bdate =
      { year := 1900, month := 1, day := 1 } ∧
    (datetime_local env st cells).2.btime =
      { hour := 0, min := 0, sec := 0, hundredths := 0 } ∧
    (datetime_local env st cells).2.dst_active = cells.dst_active ∧
    (datetime_local env st cells).2.utc_offset_minutes =
      cells.utc_offset_minutes := by
  unfold datetime_local at h ⊢
  cases hgm : env.gmtime (datetime_local_projection env st).1 with
  | some tblock => rw [hgm] at h; simp at h
  | none => exact ⟨rfl, rfl, rfl, rfl⟩

/-- Witness for C9 amended at the concrete failing host `envC9`. -/
theorem C9_amended_fallback_leaves_dst_witness :
    (datetime_local envC9 stC9 cellsC9).2.bdate =
      { year := 1900, month := 1, day := 1 } ∧
    (datetime_local envC9 stC9 cellsC9).2.btime =
      { hour := 0, min := 0, sec := 0, hundredths := 0 } ∧
    (datetime_local envC9 stC9 cellsC9).2.dst_active = cellsC9.dst_active ∧
    (datetime_local envC9 stC9 cellsC9).2.utc_offset_minutes =
      cellsC9.utc_offset_minutes :=
  C9_amended_fallback_leaves_dst envC9 stC9 cellsC9 (by decide)

/-- C10: with no UTC-offset override, when `localtime` fails at the
tracking instant (while succeeding at `time(NULL)` itself, so the
source's unchecked dereference in `datetime_UTCOffsetMinutes` is not
reached), `datetime_UTC_Offset_get` returns 480: `datetime_local_raw`
writes the sentinel `8 * 60` into the offset cell while reporting
failure, and `datetime_UTC_Offset_get` passes the cell through without
consulting the failure flag. -/
theorem C10_sentinel_offset_on_failure (env : Env) (st : ClockState)
    (tm1 : Tm)
    (_hnow : env.localtime env.now = some tm1)
    (hov : st.UTC_Offset_override = false)
    (hfail : env.localtime (env.now + st.decoupledTimeOffset_seconds) = none) :
    datetime_UTC_Offset_get env st = 480 := by
  unfold datetime_UTC_Offset_get
  rw [hov]
  dsimp only
  rw [if_neg (by decide)]
  unfold datetime_local_raw
  dsimp only
  rw [hfail]
  rfl

/-- Witness for C10 at the concrete host `envC10`, which decomposes the
current instant but not the shifted tracking instant. -/
theorem C10_sentinel_offset_on_failure_witness :
    datetime_UTC_Offset_get envC10 stC10 = 480 :=
  C10_sentinel_offset_on_failure envC10 stC10 tm0 (by decide) rfl (by decide)

end BACnetDatetime
